import Mathlib

/-!
Verification of the QualiBot GitHub Action (`src/index.ts`).

The action triggers a remote visual test, polls for its result in a bounded
loop, renders a PR comment, and decides the process exit status.  The
definitions below are a shallow embedding of that TypeScript source:
JavaScript strings become `String` (or `List Char` where the claims need
to compute with them), JavaScript numbers on the paths the claims touch
are integers (`Int`) or, for `Number()`-parsed viewport dimensions, a
literal-form value (`JsVal`: a decimal/radix literal record `JsNum`
denoting a rational via `JsNum.toRat`, or an infinity) whose truthiness
test reflects IEEE-754 rounding to double; `undefined`/missing fields
become `Option`;
the `x || d` defaulting idiom becomes `jsStringOr` / `jsNumOr`, which treat
the JavaScript falsy values (`undefined`, `""`, `0`) as absent.
-/

namespace QB

/-- JavaScript `s || d` for an optional string `s`: the default is taken
when the field is `undefined` or the empty string (both falsy). -/
def jsStringOr (s : Option String) (d : String) : String :=
  match s with
  | none => d
  | some v => if v == "" then d else v

/-- JavaScript `n || d` for an optional number `n`: the default is taken
when the field is `undefined` or `0` (both falsy). -/
def jsNumOr (n : Option Int) (d : Int) : Int :=
  match n with
  | none => d
  | some v => if v == 0 then d else v

/-- JavaScript `s.slice(0, n)`: the first `n` characters of `s`.
(JavaScript counts UTF-16 code units; for the code points occurring here
the two measures agree.) -/
def jsSlice (s : String) (n : Nat) : String :=
  ⟨s.data.take n⟩

/-- Builds a string from explicit code points.  The report strings in the
source file are stored in a double-encoded (mojibake) form; these lists
reproduce the file's exact code points. -/
def strOfCodes (cs : List Nat) : String :=
  ⟨cs.map Char.ofNat⟩

/-! ## Data model (interface `PRTestResponse`, restricted to the fields the
poll loop and the exit decision read) -/

structure IssuesSummary where
  total : Int
  critical : Int
  warning : Int
  info : Int
deriving DecidableEq, Repr

structure PRTestPayload where
  status : String
  result : Option String
  issuesSummary : Option IssuesSummary
  error : Option String
deriving DecidableEq, Repr

/-- The JSON body of a successful status read.  The service may nest the
payload under `prTest` or return it at the top level
(`responseData.prTest || responseData`). -/
inductive StatusBody where
  | nested (p : PRTestPayload)
  | flat (p : PRTestPayload)
deriving DecidableEq, Repr

/-- `responseData.prTest || responseData`. -/
def unwrapBody : StatusBody → PRTestPayload
  | .nested p => p
  | .flat p => p

/-- One poll response: `fail` models `!statusResponse.ok`, `ok` a
successful read with its JSON body. -/
inductive PollResponse where
  | fail
  | ok (b : StatusBody)
deriving DecidableEq, Repr

/-- `testData.status === "completed" || testData.status === "failed"`. -/
def isTerminalStatus (s : String) : Bool :=
  s == "completed" || s == "failed"

/-- Whether a poll response carries a terminal status. -/
def respTerminal : PollResponse → Bool
  | .fail => false
  | .ok b => isTerminalStatus (unwrapBody b).status

/-- The loop-local state at loop exit: the four `final*` variables, the
last successfully parsed payload (`testData`), the number of status
requests issued, and the wall-clock time (ms after `startTime`) of each
request. -/
structure PollOutcome where
  finalStatus : String
  finalResult : String
  totalIssues : Int
  criticalIssues : Int
  testData : Option PRTestPayload
  requests : Nat
  requestTimes : List Nat
deriving DecidableEq, Repr

/-- The poll loop of `run` (`while (Date.now() - startTime < timeout * 1000)`),
with time advanced only by the `sleep(pollInterval * 1000)` that starts
every iteration, so after `k` iterations the elapsed time is
`k * intervalMs`.  `resp i` is the response to the `i`-th status request.
`fuel` bounds the recursion; `pollLoop` supplies enough fuel for every
positive interval. -/
def pollLoopAux (resp : Nat → PollResponse) (tMs iMs : Nat) :
    Nat → Nat → Option PRTestPayload → List Nat → PollOutcome
  | 0, k, td, times =>
      { finalStatus := "timeout", finalResult := "", totalIssues := 0,
        criticalIssues := 0, testData := td, requests := k, requestTimes := times }
  | fuel + 1, k, td, times =>
      if k * iMs < tMs then
        match resp k with
        | .fail =>
            pollLoopAux resp tMs iMs fuel (k + 1) td (times ++ [(k + 1) * iMs])
        | .ok b =>
            let p := unwrapBody b
            if isTerminalStatus p.status then
              { finalStatus := p.status,
                finalResult := jsStringOr p.result "unknown",
                totalIssues := jsNumOr (p.issuesSummary.map IssuesSummary.total) 0,
                criticalIssues := jsNumOr (p.issuesSummary.map IssuesSummary.critical) 0,
                testData := some p,
                requests := k + 1,
                requestTimes := times ++ [(k + 1) * iMs] }
            else
              pollLoopAux resp tMs iMs fuel (k + 1) (some p) (times ++ [(k + 1) * iMs])
      else
        { finalStatus := "timeout", finalResult := "", totalIssues := 0,
          criticalIssues := 0, testData := td, requests := k, requestTimes := times }

/-- The poll loop with caller-supplied timeout and interval in seconds.
With a positive interval the loop runs at most `timeoutS` iterations, so
`timeoutS + 1` fuel is never exhausted. -/
def pollLoop (resp : Nat → PollResponse) (timeoutS intervalS : Nat) : PollOutcome :=
  pollLoopAux resp (timeoutS * 1000) (intervalS * 1000) (timeoutS + 1) 0 none []

/-! ## Input parsing (`run`, step 0) -/

/-- `core.getInput("wait-for-results") !== "false"`. -/
def waitForResultsFlag (raw : String) : Bool := raw != "false"

/-- `core.getInput("fail-on-critical") !== "false"`. -/
def failOnCriticalFlag (raw : String) : Bool := raw != "false"

/-- `core.getInput("comment-on-pr") !== "false"`. -/
def commentOnPRFlag (raw : String) : Bool := raw != "false"

/-- Value of a decimal-digit character. -/
def digitVal (c : Char) : Nat := c.toNat - 48

/-- Value of a string of decimal digits. -/
def digitsToNat (l : List Char) : Nat :=
  l.foldl (fun a c => a * 10 + digitVal c) 0

/-- Consume an optional leading sign, returning the sign and the rest. -/
def takeSign : List Char → Int × List Char
  | '+' :: rest => (1, rest)
  | '-' :: rest => (-1, rest)
  | l => (1, l)

/-- An optionally signed non-empty digit string, as an integer. -/
def signedDigits (l : List Char) : Option Int :=
  let (sg, l2) := takeSign l
  if l2 ≠ [] ∧ l2.all Char.isDigit then some (sg * digitsToNat l2) else none

/-- An optional exponent suffix (`e`/`E` then a signed digit string);
`some 0` when absent, `none` when malformed. -/
def takeExp : List Char → Option Int
  | [] => some 0
  | 'e' :: rest => signedDigits rest
  | 'E' :: rest => signedDigits rest
  | _ => none

/-- JavaScript `String.prototype.trim`, over the character list.
(`Char.isWhitespace` covers space, tab, CR and LF; JavaScript also trims
some rarer Unicode space characters, which no claim exercises.) -/
def jsTrim (l : List Char) : List Char :=
  ((l.dropWhile Char.isWhitespace).reverse.dropWhile Char.isWhitespace).reverse

/-- JavaScript `String.prototype.split` with a one-character separator
(the source only splits on `","` and `"x"`). -/
def splitOnChar (c : Char) : List Char → List (List Char)
  | [] => [[]]
  | a :: rest =>
      match splitOnChar c rest with
      | [] => [[a]]
      | g :: gs => if a == c then [] :: g :: gs else (a :: g) :: gs

/-- A JavaScript number parsed from a decimal literal, kept in literal
form: the denoted value is
`sign · (intPart + fracPart / 10 ^ fracLen) · 10 ^ exp` (see
`JsNum.toRat`).  `jsNumber` only builds values with `sign = 1` or
`sign = -1`. -/
structure JsNum where
  sign : Int
  intPart : Nat
  fracPart : Nat
  fracLen : Nat
  exp : Int
deriving DecidableEq, Repr

/-- The rational value a `JsNum` denotes. -/
def JsNum.toRat (x : JsNum) : ℚ :=
  (x.sign : ℚ) * ((x.intPart : ℚ) + (x.fracPart : ℚ) / (10 : ℚ) ^ x.fracLen) *
    (10 : ℚ) ^ x.exp

/-- Whether string-to-double conversion turns the literal into `0` or
`-0` (both falsy): every mantissa digit is zero, or the denoted magnitude
is at most `2 ^ (-1075)`, half the smallest subnormal double — IEEE-754
round-to-nearest takes such values to zero (the halfway case itself
rounds to the even significand, which is zero), so `Number("1e-400")` is
`0` and falsy while `Number("1e-323")` is a subnormal and truthy. -/
def JsNum.isZero (x : JsNum) : Bool :=
  let m := x.intPart * 10 ^ x.fracLen + x.fracPart
  if m == 0 then true
  else if x.exp < (x.fracLen : Int) then
    decide (m * 2 ^ 1075 ≤ 10 ^ ((x.fracLen : Int) - x.exp).toNat)
  else false

/-- A JavaScript number obtained from `Number(...)`: a finite decimal or
radix literal kept in literal form, or an infinity (`Number("Infinity")`).
Overflowing finite literals are kept in literal form as well: whether
they round to `Infinity` never matters here, since the program only tests
their truthiness and forwards them opaquely. -/
inductive JsVal where
  | num (x : JsNum)
  | inf (sign : Int)
deriving DecidableEq, Repr

/-- Truthiness test of a converted number: infinities are truthy. -/
def JsVal.isZero : JsVal → Bool
  | .num x => x.isZero
  | .inf _ => false

/-- The fractional digits after a leading `'.'`, if any. -/
def jsFracDigits : List Char → List Char
  | '.' :: rest => rest.takeWhile Char.isDigit
  | _ => []

/-- What remains after the optional `'.' digits` fragment. -/
def jsAfterFrac : List Char → List Char
  | '.' :: rest => rest.dropWhile Char.isDigit
  | l => l

def isHexDigit (c : Char) : Bool :=
  c.isDigit || ('a' ≤ c && c ≤ 'f') || ('A' ≤ c && c ≤ 'F')

def hexDigitVal (c : Char) : Nat :=
  if c.isDigit then c.toNat - 48
  else if 'a' ≤ c && c ≤ 'f' then c.toNat - 87
  else c.toNat - 55

def isOctalDigit (c : Char) : Bool := '0' ≤ c && c ≤ '7'

def isBinaryDigit (c : Char) : Bool := c == '0' || c == '1'

/-- Value of a digit string in base `b` with digit values `val`. -/
def radixToNat (b : Nat) (val : Char → Nat) (l : List Char) : Nat :=
  l.foldl (fun a c => a * b + val c) 0

/-- The body of a `0x`/`0o`/`0b` integer literal: at least one digit, all
in the digit class of the base.  No sign may surround these forms, and
their value is a nonnegative integer. -/
def jsRadix (b : Nat) (ok : Char → Bool) (val : Char → Nat) (ds : List Char) : Option JsVal :=
  if ds ≠ [] ∧ ds.all ok then
    some (JsVal.num { sign := 1, intPart := radixToNat b val ds, fracPart := 0,
                      fracLen := 0, exp := 0 })
  else none

/-- An optionally signed `Infinity` or decimal literal: integer digits, an
optional fraction, and an optional exponent, with at least one mantissa
digit. -/
def jsDecimal (t : List Char) : Option JsVal :=
  let sg := (takeSign t).1
  let l := (takeSign t).2
  if l = "Infinity".data then some (JsVal.inf sg)
  else
    let ip := l.takeWhile Char.isDigit
    let r1 := l.dropWhile Char.isDigit
    let fp := jsFracDigits r1
    let r2 := jsAfterFrac r1
    if ip = [] ∧ fp = [] then none
    else
      match takeExp r2 with
      | none => none
      | some e =>
          some (JsVal.num { sign := sg, intPart := digitsToNat ip,
                            fracPart := digitsToNat fp, fracLen := fp.length, exp := e })

/-- JavaScript `Number(s)`, with `none` standing for `NaN`: the string is
trimmed; the empty string is `0`; a `0x`/`0X`, `0o`/`0O` or `0b`/`0B`
prefix starts an unsigned radix integer; everything else is an optionally
signed `Infinity` or decimal literal. -/
def jsNumber (s : List Char) : Option JsVal :=
  match jsTrim s with
  | [] => some (JsVal.num { sign := 1, intPart := 0, fracPart := 0, fracLen := 0, exp := 0 })
  | '0' :: 'x' :: ds => jsRadix 16 isHexDigit hexDigitVal ds
  | '0' :: 'X' :: ds => jsRadix 16 isHexDigit hexDigitVal ds
  | '0' :: 'o' :: ds => jsRadix 8 isOctalDigit digitVal ds
  | '0' :: 'O' :: ds => jsRadix 8 isOctalDigit digitVal ds
  | '0' :: 'b' :: ds => jsRadix 2 isBinaryDigit digitVal ds
  | '0' :: 'B' :: ds => jsRadix 2 isBinaryDigit digitVal ds
  | t => jsDecimal t

structure Viewport where
  width : JsVal
  height : JsVal
deriving DecidableEq, Repr

/-- One token of the `viewports` input:
`const [w, h] = v.trim().split("x").map(Number); return w && h ? {width: w, height: h} : null;`.
The guard `w && h` is JavaScript truthiness: it holds exactly when both
destructured values exist (the split produced at least two parts), are
numbers (not `NaN`), and are nonzero. -/
def parseViewportToken (v : List Char) : Option Viewport :=
  match (splitOnChar 'x' (jsTrim v)).map jsNumber with
  | some w :: some h :: _ =>
      if w.isZero = false ∧ h.isZero = false then some { width := w, height := h }
      else none
  | _ => none

/-- `(... ).split(",").map(...).filter(Boolean)` over the raw `viewports`
input. -/
def parseViewports (s : String) : List Viewport :=
  (splitOnChar ',' s.data).filterMap parseViewportToken

/-! ## Exit decision (`run`, step 5) -/

inductive RunExit where
  | failed (msg : String)
  | success
deriving DecidableEq, Repr

/-- Step 5 of `run`: `core.setFailed` on timeout, on a `failed` terminal
status, or on `failOnCritical && criticalIssues > 0`; otherwise the run
ends successfully.  `errField` is `testData?.error`. -/
def exitStep (finalStatus : String) (criticalIssues : Int) (failOnCritical : Bool)
    (errField : Option String) : RunExit :=
  if finalStatus == "timeout" then
    .failed "QualiBot test timed out. Check the dashboard for details."
  else if finalStatus == "failed" then
    .failed ("QualiBot test failed: " ++ jsStringOr errField "Unknown error")
  else if failOnCritical && criticalIssues > 0 then
    .failed ("QualiBot found " ++ toString criticalIssues ++ " critical visual issue(s).")
  else
    .success

/-! ## Comment rendering (`postComment`)

The source file stores its emoji in a double-encoded (mojibake) form; the
`strOfCodes` lists below are the exact code points of the file's string
literals. -/

def timeoutEmoji : String := strOfCodes [0xE2, 0xB1, 0xEF, 0xB8]
def passedEmoji : String := strOfCodes [0xE2, 0x153, 0x2026]
def criticalEmoji : String := strOfCodes [0x11F, 0x178, 0x161, 0xA8]
def warnEmoji : String := strOfCodes [0xE2, 0x161, 0xA0, 0xEF, 0xB8]
def failEmoji : String := strOfCodes [0xE2, 0x152]
def redIcon : String := strOfCodes [0x11F, 0x178, 0x201D, 0xB4]
def yellowIcon : String := strOfCodes [0x11F, 0x178, 0x178, 0xA1]
def blueIcon : String := strOfCodes [0x11F, 0x178, 0x201D, 0xB5]
def regressedIcon : String := strOfCodes [0xE2, 0xAC, 0x2020, 0xEF, 0xB8]
def recurringIcon : String := strOfCodes [0x11F, 0x178, 0x201D, 0x201E]
def newIcon : String := strOfCodes [0x11F, 0x178, 0x2020, 0x2022]

structure Banner where
  emoji : String
  title : String
  details : String
deriving DecidableEq, Repr

/-- The `if/else if` chain at the top of `postComment` choosing the
heading emoji, title and details line. -/
def chooseBanner (status result : String) (totalIssues criticalIssues : Int)
    (components : Nat) : Banner :=
  if status == "timeout" then
    { emoji := timeoutEmoji, title := "Test Timed Out",
      details := "The visual test did not complete within the timeout period." }
  else if result == "passed" then
    { emoji := passedEmoji, title := "Visual Tests Passed",
      details := "All visual tests passed. **" ++ toString components ++ "** component(s) tested." }
  else if criticalIssues > 0 then
    { emoji := criticalEmoji, title := "Critical Visual Issues Found",
      details := "**" ++ toString totalIssues ++ "** issue(s) found (**" ++
        toString criticalIssues ++ "** critical) across **" ++ toString components ++
        "** component(s)." }
  else if totalIssues > 0 then
    { emoji := warnEmoji, title := "Visual Issues Found",
      details := "**" ++ toString totalIssues ++ "** issue(s) found across **" ++
        toString components ++ "** component(s)." }
  else
    { emoji := failEmoji, title := "Visual Tests Failed",
      details := "The test encountered errors during execution." }

/-- One entry of `testResults` (the top-level issues list). -/
structure TestIssue where
  type : String
  severity : String
  title : String
  description : String
  suggestion : Option String
  status : Option String
deriving DecidableEq, Repr

/-- The severity icon used in the issues table and in the per-issue lists
(`critical` / `warning` / other). -/
def severityIcon (s : String) : String :=
  if s == "critical" then redIcon
  else if s == "warning" then yellowIcon
  else blueIcon

/-- `issue.status ? (... regressed/recurring/new ...) : ''` — the label is
empty for a falsy status (`undefined` or `""`). -/
def statusLabel (st : Option String) : String :=
  match st with
  | none => ""
  | some s =>
      if s == "" then ""
      else if s == "regressed" then regressedIcon ++ " Regressed"
      else if s == "recurring" then recurringIcon ++ " Recurring"
      else newIcon ++ " New"

/-- One row of the issues table: the description is cut by
`issue.description.slice(0, 100)`, the title is embedded as-is. -/
def renderIssueRow (i : TestIssue) : String :=
  "| " ++ severityIcon i.severity ++ " " ++ i.severity ++ " | " ++ i.type ++
  " | " ++ i.title ++ " | " ++ jsSlice i.description 100 ++ " | " ++
  statusLabel i.status ++ " |"

/-- The fixed lines opening the issues section. -/
def issuesSectionHeader : List String :=
  ["", "### Issues Found", "", "| Severity | Type | Title | Description | Status |",
   "|---|---|---|---|---|"]

/-- The overflow note after the table: present exactly when more than 10
issues exist. -/
def issuesOverflow (issues : List TestIssue) : List String :=
  if issues.length > 10 then
    ["", "_...and " ++ toString (issues.length - 10) ++ " more issues_"]
  else []

/-- The `### Issues Found` section of the comment: rendered only for a
non-empty list, with rows for `data.issues.slice(0, 10)` and the overflow
note. -/
def issuesSection (issues : List TestIssue) : List String :=
  if issues.length > 0 then
    issuesSectionHeader ++ (issues.take 10).map renderIssueRow ++ issuesOverflow issues
  else []

/-- An issue attached to one interaction test. -/
structure InteractionIssue where
  severity : String
  title : String
  description : String
deriving DecidableEq, Repr

/-- One line of an interaction test's issue list:
`- ${sev} ${issue.title}: ${issue.description.slice(0, 120)}` — the
description is cut at 120 characters, the title is embedded as-is. -/
def renderInteractionIssueLine (i : InteractionIssue) : String :=
  "- " ++ severityIcon i.severity ++ " " ++ i.title ++ ": " ++ jsSlice i.description 120

/-! ## The `try`/`catch` around `postComment` -/

/-- The outcome of a JavaScript computation: it either returns a value or
throws. -/
inductive JsResult (α : Type) where
  | ok (a : α)
  | thrown (e : String)
deriving DecidableEq, Repr

/-- What `postComment` reports. -/
inductive CommentOutcome where
  | posted (body : String)
  | warnedFailure (msg : String)
deriving DecidableEq, Repr

/-- `postComment`: its whole body — rendering the lines and awaiting the
`createComment` write — sits inside one `try`; `body` is that computation's
outcome (`.ok` with the rendered text if it returned, `.thrown` if any step
raised).  The `catch` turns every exception into
`core.warning("Failed to post PR comment: ...")`. -/
def postComment (body : JsResult String) : CommentOutcome :=
  match body with
  | .ok b => .posted b
  | .thrown e => .warnedFailure ("Failed to post PR comment: " ++ e)

/-- Steps 3–5 of `run` after the poll loop: optionally post the comment
(when `commentOnPR` is set and `githubToken` is truthy), then decide the
exit.  Returns what the comment step did alongside the exit decision. -/
def runAfterPoll (o : PollOutcome) (failOnCritical commentOnPR : Bool)
    (githubToken : String) (commentBody : JsResult String)
    (errField : Option String) : Option CommentOutcome × RunExit :=
  ((if commentOnPR && githubToken != "" then some (postComment commentBody) else none),
   exitStep o.finalStatus o.criticalIssues failOnCritical errField)

/-! ## Poll-loop lemmas -/

/-- With the deadline already reached, an iteration exits with the
initialized `timeout` state. -/
theorem pollLoopAux_deadline (resp : Nat → PollResponse) (tMs iMs fuel k : Nat)
    (td : Option PRTestPayload) (times : List Nat) (hk : ¬ k * iMs < tMs) :
    pollLoopAux resp tMs iMs (fuel + 1) k td times =
      { finalStatus := "timeout", finalResult := "", totalIssues := 0,
        criticalIssues := 0, testData := td, requests := k, requestTimes := times } := by
  simp [pollLoopAux, hk]

/-- A non-success status read only logs a warning and continues the loop,
leaving `testData` and the recorded final fields untouched. -/
theorem pollLoopAux_fail (resp : Nat → PollResponse) (tMs iMs fuel k : Nat)
    (td : Option PRTestPayload) (times : List Nat) (hk : k * iMs < tMs)
    (hr : resp k = .fail) :
    pollLoopAux resp tMs iMs (fuel + 1) k td times =
      pollLoopAux resp tMs iMs fuel (k + 1) td (times ++ [(k + 1) * iMs]) := by
  simp [pollLoopAux, hk, hr]

/-- A successful read with a non-terminal status replaces `testData` and
continues the loop. -/
theorem pollLoopAux_nonterminal (resp : Nat → PollResponse) (tMs iMs fuel k : Nat)
    (td : Option PRTestPayload) (times : List Nat) (b : StatusBody)
    (hk : k * iMs < tMs) (hr : resp k = .ok b)
    (hnt : isTerminalStatus (unwrapBody b).status = false) :
    pollLoopAux resp tMs iMs (fuel + 1) k td times =
      pollLoopAux resp tMs iMs fuel (k + 1) (some (unwrapBody b))
        (times ++ [(k + 1) * iMs]) := by
  simp [pollLoopAux, hk, hr, hnt]

/-- A successful read with a terminal status records the final fields and
exits the loop at once. -/
theorem pollLoopAux_terminal (resp : Nat → PollResponse) (tMs iMs fuel k : Nat)
    (td : Option PRTestPayload) (times : List Nat) (b : StatusBody)
    (hk : k * iMs < tMs) (hr : resp k = .ok b)
    (ht : isTerminalStatus (unwrapBody b).status = true) :
    pollLoopAux resp tMs iMs (fuel + 1) k td times =
      { finalStatus := (unwrapBody b).status,
        finalResult := jsStringOr (unwrapBody b).result "unknown",
        totalIssues := jsNumOr ((unwrapBody b).issuesSummary.map IssuesSummary.total) 0,
        criticalIssues := jsNumOr ((unwrapBody b).issuesSummary.map IssuesSummary.critical) 0,
        testData := some (unwrapBody b),
        requests := k + 1,
        requestTimes := times ++ [(k + 1) * iMs] } := by
  simp [pollLoopAux, hk, hr, ht]

/-- If every status read issued before the deadline is non-terminal, the
loop exits with `finalStatus = "timeout"` (whatever the fuel). -/
theorem pollLoopAux_status_timeout (resp : Nat → PollResponse) (tMs iMs : Nat)
    (h : ∀ k, k * iMs < tMs → respTerminal (resp k) = false) :
    ∀ fuel k td times,
      (pollLoopAux resp tMs iMs fuel k td times).finalStatus = "timeout" := by
  intro fuel
  induction fuel with
  | zero => intro k td times; rfl
  | succ f ih =>
      intro k td times
      by_cases hk : k * iMs < tMs
      · have hnt := h k hk
        cases hr : resp k with
        | fail =>
            rw [pollLoopAux_fail resp tMs iMs f k td times hk hr]
            exact ih _ _ _
        | ok b =>
            rw [hr] at hnt
            simp only [respTerminal] at hnt
            rw [pollLoopAux_nonterminal resp tMs iMs f k td times b hk hr hnt]
            exact ih _ _ _
      · rw [pollLoopAux_deadline resp tMs iMs f k td times hk]

/-- Mapping over `range (n + 1)` peels off the first index. -/
theorem rangeMapShift (g : Nat → Nat) (n : Nat) :
    (List.range (n + 1)).map g = g 0 :: (List.range n).map (fun j => g (j + 1)) := by
  rw [List.range_succ_eq_map, List.map_cons, List.map_map]
  rfl

/-- If the `n`-th status read after position `k` is the first to return a
terminal payload, and its iteration starts before the deadline, the loop
exits there with that payload's fields recorded and `n + 1` further
requests issued, the last at `(k + n + 1) · iMs` ms. -/
theorem pollLoopAux_reaches (resp : Nat → PollResponse) (tMs iMs : Nat)
    (b : StatusBody) (ht : isTerminalStatus (unwrapBody b).status = true) :
    ∀ n k fuel td times, n < fuel →
      (∀ j, j < n → respTerminal (resp (k + j)) = false) →
      resp (k + n) = .ok b →
      (k + n) * iMs < tMs →
      pollLoopAux resp tMs iMs fuel k td times =
        { finalStatus := (unwrapBody b).status,
          finalResult := jsStringOr (unwrapBody b).result "unknown",
          totalIssues := jsNumOr ((unwrapBody b).issuesSummary.map IssuesSummary.total) 0,
          criticalIssues := jsNumOr ((unwrapBody b).issuesSummary.map IssuesSummary.critical) 0,
          testData := some (unwrapBody b),
          requests := k + n + 1,
          requestTimes := times ++ (List.range (n + 1)).map (fun j => (k + j + 1) * iMs) } := by
  intro n
  induction n with
  | zero =>
      intro k fuel td times hfuel hprev hr hk
      obtain ⟨f, rfl⟩ : ∃ f, fuel = f + 1 := ⟨fuel - 1, by omega⟩
      rw [Nat.add_zero] at hr hk
      rw [pollLoopAux_terminal resp tMs iMs f k td times b hk hr ht]
      have h1 : (List.range 1).map (fun j => (k + j + 1) * iMs) = [(k + 1) * iMs] := by
        rw [rangeMapShift (fun j => (k + j + 1) * iMs) 0]
        rfl
      rw [h1]
  | succ n ih =>
      intro k fuel td times hfuel hprev hr hk
      obtain ⟨f, rfl⟩ : ∃ f, fuel = f + 1 := ⟨fuel - 1, by omega⟩
      have hk0 : k * iMs < tMs := by
        have h1 : k * iMs ≤ (k + (n + 1)) * iMs := Nat.mul_le_mul_right _ (by omega)
        exact lt_of_le_of_lt h1 hk
      have hnt0 : respTerminal (resp k) = false := by
        have := hprev 0 (by omega)
        simpa using this
      have hshift : ∀ j, j < n → respTerminal (resp (k + 1 + j)) = false := by
        intro j hj
        have := hprev (j + 1) (by omega)
        have harith : k + (j + 1) = k + 1 + j := by omega
        rwa [harith] at this
      have hr' : resp (k + 1 + n) = .ok b := by
        have harith : k + (n + 1) = k + 1 + n := by omega
        rwa [harith] at hr
      have hk' : (k + 1 + n) * iMs < tMs := by
        have harith : k + (n + 1) = k + 1 + n := by omega
        rwa [harith] at hk
      have htimes : ∀ (ts : List Nat),
          ts ++ [(k + 1) * iMs] ++ (List.range (n + 1)).map (fun j => (k + 1 + j + 1) * iMs) =
          ts ++ (List.range (n + 1 + 1)).map (fun j => (k + j + 1) * iMs) := by
        intro ts
        rw [List.append_assoc, List.singleton_append]
        congr 1
        conv_rhs => rw [rangeMapShift (fun j => (k + j + 1) * iMs) (n + 1)]
        show (k + 1) * iMs :: (List.range (n + 1)).map (fun j => (k + 1 + j + 1) * iMs) =
          (k + 0 + 1) * iMs :: (List.range (n + 1)).map (fun j => (k + (j + 1) + 1) * iMs)
        congr 1
        apply List.map_congr_left
        intro j _
        congr 1
        omega
      cases hr0 : resp k with
      | fail =>
          rw [pollLoopAux_fail resp tMs iMs f k td times hk0 hr0]
          rw [ih (k + 1) f td (times ++ [(k + 1) * iMs]) (by omega) hshift hr' hk']
          rw [htimes times]
          congr 1
          omega
      | ok b0 =>
          rw [hr0] at hnt0
          simp only [respTerminal] at hnt0
          rw [pollLoopAux_nonterminal resp tMs iMs f k td times b0 hk0 hr0 hnt0]
          rw [ih (k + 1) f (some (unwrapBody b0)) (times ++ [(k + 1) * iMs]) (by omega)
                hshift hr' hk']
          rw [htimes times]
          congr 1
          omega

/-- One loop iteration before the deadline on a non-terminal response
continues the loop with some `testData` and one more request logged. -/
theorem pollLoopAux_step (resp : Nat → PollResponse) (tMs iMs fuel k : Nat)
    (td : Option PRTestPayload) (times : List Nat) (hk : k * iMs < tMs)
    (hnt : respTerminal (resp k) = false) :
    ∃ td', pollLoopAux resp tMs iMs (fuel + 1) k td times =
      pollLoopAux resp tMs iMs fuel (k + 1) td' (times ++ [(k + 1) * iMs]) := by
  cases hr : resp k with
  | fail => exact ⟨td, pollLoopAux_fail resp tMs iMs fuel k td times hk hr⟩
  | ok b =>
      rw [hr] at hnt
      simp only [respTerminal] at hnt
      exact ⟨some (unwrapBody b),
        pollLoopAux_nonterminal resp tMs iMs fuel k td times b hk hr hnt⟩

/-! ## Sample data for witnesses and counterexamples -/

def sampleSummary : IssuesSummary := { total := 5, critical := 2, warning := 2, info := 1 }

def completedPayload : PRTestPayload :=
  { status := "completed", result := some "passed", issuesSummary := some sampleSummary,
    error := none }

def runningPayload : PRTestPayload :=
  { status := "running", result := none, issuesSummary := none, error := none }

/-- Two `running` reads, one transient failure, then a terminal payload. -/
def sampleResp : Nat → PollResponse := fun i =>
  if i < 2 then PollResponse.ok (StatusBody.flat runningPayload)
  else if i = 2 then PollResponse.fail
  else PollResponse.ok (StatusBody.nested completedPayload)

/-- A service that never reaches a terminal status. -/
def constRunningResp : Nat → PollResponse :=
  fun _ => PollResponse.ok (StatusBody.flat runningPayload)

/-- A terminal payload whose `result` field is present but empty. -/
def emptyResultPayload : PRTestPayload :=
  { status := "completed", result := some "", issuesSummary := none, error := none }

def emptyResultResp : Nat → PollResponse :=
  fun _ => PollResponse.ok (StatusBody.flat emptyResultPayload)

/-! ## Claim C1 -/

/-- Claim C1 counterexample: a `completed` payload whose `result` field is
present but equal to the empty string.  The claim says the final result
label is "the payload's result field or `unknown` when that field is
absent"; here the field is present (`some ""`), yet the loop records
`"unknown"`, because `testData.result || "unknown"` treats the empty
string as falsy. -/
theorem claim1_poll_terminal_cex :
    emptyResultPayload.result = some "" ∧
    (pollLoop emptyResultResp 1800 30).finalStatus = "completed" ∧
    (pollLoop emptyResultResp 1800 30).finalResult = "unknown" ∧
    ("unknown" : String) ≠ "" := by
  have hmain := pollLoopAux_terminal emptyResultResp (1800 * 1000) (30 * 1000) 1800 0 none []
    (StatusBody.flat emptyResultPayload) (by decide) rfl (by decide)
  have hpoll : pollLoop emptyResultResp 1800 30 = _ := hmain
  rw [hpoll]
  exact ⟨rfl, rfl, rfl, by decide⟩

/-- Claim C1 (amended: the result label defaults to `"unknown"` when the
`result` field is absent **or empty**): a successful poll response with a
`completed`/`failed` payload, first such response at request `k` issued
before the deadline, makes the loop record that status, the defaulted
result label and issue counts, and exit at once (`k + 1` requests in
total); and a run whose reads before the deadline never carry a terminal
status ends with `finalStatus = "timeout"`. -/
theorem claim1_poll_terminal :
    (∀ (resp : Nat → PollResponse) (tS iS k : Nat) (b : StatusBody),
      0 < iS →
      (∀ j, j < k → respTerminal (resp j) = false) →
      resp k = PollResponse.ok b →
      ((unwrapBody b).status = "completed" ∨ (unwrapBody b).status = "failed") →
      k * (iS * 1000) < tS * 1000 →
      (pollLoop resp tS iS).finalStatus = (unwrapBody b).status ∧
      (pollLoop resp tS iS).finalResult = jsStringOr (unwrapBody b).result "unknown" ∧
      (pollLoop resp tS iS).totalIssues =
        jsNumOr ((unwrapBody b).issuesSummary.map IssuesSummary.total) 0 ∧
      (pollLoop resp tS iS).criticalIssues =
        jsNumOr ((unwrapBody b).issuesSummary.map IssuesSummary.critical) 0 ∧
      (pollLoop resp tS iS).requests = k + 1) ∧
    (∀ (resp : Nat → PollResponse) (tS iS : Nat),
      (∀ k, k * (iS * 1000) < tS * 1000 → respTerminal (resp k) = false) →
      (pollLoop resp tS iS).finalStatus = "timeout") := by
  constructor
  · intro resp tS iS k b hiS hprev hr hterm hk
    have ht : isTerminalStatus (unwrapBody b).status = true := by
      rcases hterm with h | h <;> simp [isTerminalStatus, h]
    have ha : 1000 ≤ iS * 1000 := by
      calc 1000 = 1 * 1000 := by omega
      _ ≤ iS * 1000 := Nat.mul_le_mul_right 1000 hiS
    have hb : k * 1000 ≤ k * (iS * 1000) := Nat.mul_le_mul_left k ha
    have hfuel : k < tS + 1 := by
      by_contra hcon
      push_neg at hcon
      have he : tS * 1000 ≤ k * 1000 := Nat.mul_le_mul_right 1000 (by omega)
      omega
    have h0 : ∀ j, j < k → respTerminal (resp (0 + j)) = false := by
      intro j hj
      rw [Nat.zero_add]
      exact hprev j hj
    have hr0 : resp (0 + k) = PollResponse.ok b := by
      rw [Nat.zero_add]
      exact hr
    have hk0 : (0 + k) * (iS * 1000) < tS * 1000 := by
      rw [Nat.zero_add]
      exact hk
    have hmain := pollLoopAux_reaches resp (tS * 1000) (iS * 1000) b ht k 0 (tS + 1) none []
      hfuel h0 hr0 hk0
    have hpoll : pollLoop resp tS iS = _ := hmain
    rw [hpoll]
    refine ⟨rfl, rfl, rfl, rfl, ?_⟩
    show 0 + k + 1 = k + 1
    omega
  · intro resp tS iS h
    exact pollLoopAux_status_timeout resp (tS * 1000) (iS * 1000) h (tS + 1) 0 none []

/-- Claim C1 witness: the terminal branch at request index 3 after two
`running` reads and one transient failure, and the timeout branch on an
always-`running` service. -/
theorem claim1_poll_terminal_wit :
    ((∀ j, j < 3 → respTerminal (sampleResp j) = false) ∧
      3 * (30 * 1000) < 1800 * 1000) ∧
    ((pollLoop sampleResp 1800 30).finalStatus = "completed" ∧
      (pollLoop sampleResp 1800 30).finalResult = "passed" ∧
      (pollLoop sampleResp 1800 30).totalIssues = 5 ∧
      (pollLoop sampleResp 1800 30).criticalIssues = 2 ∧
      (pollLoop sampleResp 1800 30).requests = 4) ∧
    (pollLoop constRunningResp 60 30).finalStatus = "timeout" := by
  have h := claim1_poll_terminal.1 sampleResp 1800 30 3 (StatusBody.nested completedPayload)
    (by decide) (by decide) rfl (Or.inl rfl) (by decide)
  have h2 := claim1_poll_terminal.2 constRunningResp 60 30 (fun k _ => rfl)
  refine ⟨⟨by decide, by decide⟩, ⟨h.1, ?_, ?_, ?_, h.2.2.2.2⟩, h2⟩
  · rw [h.2.1]
    decide
  · rw [h.2.2.1]
    decide
  · rw [h.2.2.2.1]
    decide

/-! ## Claim C2 -/

/-- Claim C2: after the poll loop, the run fails exactly when the final
status is `timeout`, or the final status is `failed`, or the
fail-on-critical flag is set and the critical count is positive; in every
other case it succeeds.  The total issue count never enters step 5, so a
run with non-critical issues only (`total > 0`, `critical = 0`) succeeds,
as the second conjunct records for every flag value. -/
theorem claim2_exit_iff :
    (∀ (st : String) (c : Int) (foc : Bool) (err : Option String),
      (∃ m, exitStep st c foc err = RunExit.failed m) ↔
        (st = "timeout" ∨ st = "failed" ∨ (foc = true ∧ 0 < c))) ∧
    (∀ (foc : Bool) (err : Option String), exitStep "completed" 0 foc err = RunExit.success) ∧
    exitStep "completed" 7 false none = RunExit.success := by
  refine ⟨?_, ?_, by decide⟩
  · intro st c foc err
    by_cases h1 : st = "timeout"
    · simp [exitStep, h1]
    · by_cases h2 : st = "failed"
      · simp [exitStep, h1, h2]
      · by_cases hf : foc
        · by_cases hc : 0 < c
          · simp [exitStep, h1, h2, hf, hc]
          · simp [exitStep, h1, h2, hf, hc]
        · simp [exitStep, h1, h2, hf]
  · intro foc err
    cases foc <;> simp [exitStep]

/-! ## Claim C3 -/

/-- Claim C3: the comment banner is chosen by strict priority — timeout
first, then `result == "passed"`, then `criticalIssues > 0`, then
`totalIssues > 0`, else the generic failure banner; in particular a
`failed` status with result label `passed` gets the passed banner, and a
`failed` status with zero issues and a non-`passed` label gets the generic
failure banner. -/
theorem claim3_banner_priority :
    (∀ (st r : String) (t c : Int) (n : Nat),
      st = "timeout" → (chooseBanner st r t c n).title = "Test Timed Out") ∧
    (∀ (st r : String) (t c : Int) (n : Nat), st ≠ "timeout" → r = "passed" →
      (chooseBanner st r t c n).title = "Visual Tests Passed") ∧
    (∀ (st r : String) (t c : Int) (n : Nat), st ≠ "timeout" → r ≠ "passed" → 0 < c →
      (chooseBanner st r t c n).title = "Critical Visual Issues Found") ∧
    (∀ (st r : String) (t c : Int) (n : Nat), st ≠ "timeout" → r ≠ "passed" → c ≤ 0 → 0 < t →
      (chooseBanner st r t c n).title = "Visual Issues Found") ∧
    (∀ (st r : String) (t c : Int) (n : Nat), st ≠ "timeout" → r ≠ "passed" → c ≤ 0 → t ≤ 0 →
      (chooseBanner st r t c n).title = "Visual Tests Failed") ∧
    (∀ (t c : Int) (n : Nat),
      (chooseBanner "failed" "passed" t c n).title = "Visual Tests Passed") ∧
    (∀ n : Nat, (chooseBanner "failed" "unknown" 0 0 n).title = "Visual Tests Failed") := by
  refine ⟨?_, ?_, ?_, ?_, ?_, fun t c n => rfl, fun n => rfl⟩
  · intro st r t c n h
    simp [chooseBanner, h]
  · intro st r t c n h1 h2
    simp [chooseBanner, h1, h2]
  · intro st r t c n h1 h2 h3
    simp [chooseBanner, h1, h2, h3]
  · intro st r t c n h1 h2 h3 h4
    simp [chooseBanner, h1, h2, not_lt.mpr h3, h4]
  · intro st r t c n h1 h2 h3 h4
    simp [chooseBanner, h1, h2, not_lt.mpr h3, not_lt.mpr h4]

/-- Claim C3 witness: one concrete input per banner variant, including a
`failed` status under each of the two highlighted cases. -/
theorem claim3_banner_priority_wit :
    (chooseBanner "timeout" "passed" 3 1 2).title = "Test Timed Out" ∧
    (chooseBanner "failed" "passed" 3 1 2).title = "Visual Tests Passed" ∧
    (chooseBanner "failed" "unknown" 3 1 2).title = "Critical Visual Issues Found" ∧
    (chooseBanner "completed" "unknown" 3 0 2).title = "Visual Issues Found" ∧
    (chooseBanner "failed" "unknown" 0 0 2).title = "Visual Tests Failed" :=
  ⟨claim3_banner_priority.1 "timeout" "passed" 3 1 2 rfl,
   claim3_banner_priority.2.1 "failed" "passed" 3 1 2 (by decide) rfl,
   claim3_banner_priority.2.2.1 "failed" "unknown" 3 1 2 (by decide) (by decide) (by decide),
   claim3_banner_priority.2.2.2.1 "completed" "unknown" 3 0 2 (by decide) (by decide)
     (by decide) (by decide),
   claim3_banner_priority.2.2.2.2.1 "failed" "unknown" 0 0 2 (by decide) (by decide)
     (by decide) (by decide)⟩

/-! ## Claim C5 -/

/-- Claim C5: `postComment` never lets an exception escape — a thrown
rendering or publish step becomes a `Failed to post PR comment` warning, a
returning one posts the body — and the exit decision of the run is the
same whatever the comment step did. -/
theorem claim5_comment_recovered :
    (∀ e, postComment (JsResult.thrown e) =
      CommentOutcome.warnedFailure ("Failed to post PR comment: " ++ e)) ∧
    (∀ b, postComment (JsResult.ok b) = CommentOutcome.posted b) ∧
    (∀ (o : PollOutcome) (foc cop : Bool) (tok : String) (err : Option String)
        (body body' : JsResult String),
      (runAfterPoll o foc cop tok body err).2 = (runAfterPoll o foc cop tok body' err).2) :=
  ⟨fun _ => rfl, fun _ => rfl, fun _ _ _ _ _ _ _ => rfl⟩

/-! ## Claim C10 -/

/-- Claim C10: each of the three boolean inputs is disabled exactly by the
literal string `"false"`; `"False"`, `"FALSE"`, `"no"`, `"0"` and the
empty string all leave the flag enabled. -/
theorem claim10_false_flags :
    (∀ s : String,
      (waitForResultsFlag s = false ↔ s = "false") ∧
      (failOnCriticalFlag s = false ↔ s = "false") ∧
      (commentOnPRFlag s = false ↔ s = "false")) ∧
    (waitForResultsFlag "False" = true ∧ waitForResultsFlag "FALSE" = true ∧
      waitForResultsFlag "no" = true ∧ waitForResultsFlag "0" = true ∧
      waitForResultsFlag "" = true) ∧
    (failOnCriticalFlag "False" = true ∧ failOnCriticalFlag "FALSE" = true ∧
      failOnCriticalFlag "no" = true ∧ failOnCriticalFlag "0" = true ∧
      failOnCriticalFlag "" = true) ∧
    (commentOnPRFlag "False" = true ∧ commentOnPRFlag "FALSE" = true ∧
      commentOnPRFlag "no" = true ∧ commentOnPRFlag "0" = true ∧
      commentOnPRFlag "" = true) := by
  refine ⟨?_, by decide, by decide, by decide⟩
  intro s
  refine ⟨?_, ?_, ?_⟩ <;>
    simp [waitForResultsFlag, failOnCriticalFlag, commentOnPRFlag]

/-! ## Claim C4 -/

/-- Claim C4: a non-success status read only logs a warning and continues
the next iteration with the loop state (recorded payload and final fields)
untouched; and one transient failure followed by a `completed` read leaves
the loop unaborted with final status `completed` after exactly 2
requests. -/
theorem claim4_transient_retry :
    (∀ (resp : Nat → PollResponse) (tMs iMs fuel k : Nat) (td : Option PRTestPayload)
        (times : List Nat), k * iMs < tMs → resp k = PollResponse.fail →
      pollLoopAux resp tMs iMs (fuel + 1) k td times =
        pollLoopAux resp tMs iMs fuel (k + 1) td (times ++ [(k + 1) * iMs])) ∧
    (∀ (resp : Nat → PollResponse) (tS iS : Nat) (b : StatusBody),
      0 < iS → iS < tS →
      resp 0 = PollResponse.fail →
      resp 1 = PollResponse.ok b →
      (unwrapBody b).status = "completed" →
      (pollLoop resp tS iS).finalStatus = "completed" ∧
      (pollLoop resp tS iS).requests = 2) := by
  constructor
  · exact fun resp tMs iMs fuel k td times hk hr =>
      pollLoopAux_fail resp tMs iMs fuel k td times hk hr
  · intro resp tS iS b hiS hlt hr0 hr1 hst
    have ht : isTerminalStatus (unwrapBody b).status = true := by
      simp [isTerminalStatus, hst]
    have hprev : ∀ j, j < 1 → respTerminal (resp (0 + j)) = false := by
      intro j hj
      have hj0 : j = 0 := by omega
      subst hj0
      simp [respTerminal, hr0]
    have hr1' : resp (0 + 1) = PollResponse.ok b := by simpa using hr1
    have hk1 : (0 + 1) * (iS * 1000) < tS * 1000 := by
      have h := (Nat.mul_lt_mul_right (by omega : (0 : Nat) < 1000)).mpr hlt
      simpa using h
    have hmain := pollLoopAux_reaches resp (tS * 1000) (iS * 1000) b ht 1 0 (tS + 1) none []
      (by omega) hprev hr1' hk1
    have hpoll : pollLoop resp tS iS = _ := hmain
    rw [hpoll]
    constructor
    · show (unwrapBody b).status = "completed"
      exact hst
    · show 0 + 1 + 1 = 2
      rfl

/-- A transient failure on the first read, then a terminal payload. -/
def failThenDoneResp : Nat → PollResponse := fun i =>
  if i = 0 then PollResponse.fail else PollResponse.ok (StatusBody.flat completedPayload)

/-- Claim C4 witness: the continuation step on a concrete failing read,
and the two-request recovery scenario. -/
theorem claim4_transient_retry_wit :
    (pollLoopAux failThenDoneResp 60000 30000 3 0 none [] =
      pollLoopAux failThenDoneResp 60000 30000 2 1 none ([] ++ [(0 + 1) * 30000])) ∧
    (pollLoop failThenDoneResp 1800 30).finalStatus = "completed" ∧
    (pollLoop failThenDoneResp 1800 30).requests = 2 := by
  have h := claim4_transient_retry.2 failThenDoneResp 1800 30 (StatusBody.flat completedPayload)
    (by decide) (by decide) rfl rfl rfl
  exact ⟨claim4_transient_retry.1 failThenDoneResp 60000 30000 2 0 none [] (by decide) rfl,
    h.1, h.2⟩

/-! ## Claim C9 -/

/-- Claim C9: with timeout 60 s and poll interval 30 s, a run whose reads
never carry a terminal status issues exactly 2 requests, at 30 000 ms and
60 000 ms after loop entry — each no earlier than one interval in and none
after the 60 000 ms deadline — ends with `finalStatus = "timeout"`, and
step 5 then fails the run with the timeout message. -/
theorem claim9_timeout_scenario :
    ∀ (resp : Nat → PollResponse),
      (∀ i, respTerminal (resp i) = false) →
      (pollLoop resp 60 30).requests = 2 ∧
      (pollLoop resp 60 30).finalStatus = "timeout" ∧
      (pollLoop resp 60 30).requestTimes = [30000, 60000] ∧
      (∀ t ∈ (pollLoop resp 60 30).requestTimes, 30 * 1000 ≤ t ∧ t ≤ 60 * 1000) ∧
      (∀ (foc : Bool) (err : Option String),
        exitStep (pollLoop resp 60 30).finalStatus (pollLoop resp 60 30).criticalIssues foc err =
          RunExit.failed "QualiBot test timed out. Check the dashboard for details.") := by
  intro resp h
  obtain ⟨td1, e1⟩ := pollLoopAux_step resp 60000 30000 60 0 none [] (by decide) (h 0)
  obtain ⟨td2, e2⟩ := pollLoopAux_step resp 60000 30000 59 1 td1 ([] ++ [(0 + 1) * 30000])
    (by decide) (h 1)
  have e3 := pollLoopAux_deadline resp 60000 30000 58 2 td2
    (([] ++ [(0 + 1) * 30000]) ++ [(1 + 1) * 30000]) (by decide)
  have hout : pollLoop resp 60 30 =
      { finalStatus := "timeout", finalResult := "", totalIssues := 0, criticalIssues := 0,
        testData := td2, requests := 2,
        requestTimes := ([] ++ [(0 + 1) * 30000]) ++ [(1 + 1) * 30000] } := by
    show pollLoopAux resp 60000 30000 (60 + 1) 0 none [] = _
    exact e1.trans (e2.trans e3)
  rw [hout]
  refine ⟨rfl, rfl, ?_, ?_, fun foc err => rfl⟩
  · show ([] ++ [(0 + 1) * 30000]) ++ [(1 + 1) * 30000] = [30000, 60000]
    decide
  · show ∀ t ∈ ([] ++ [(0 + 1) * 30000]) ++ [(1 + 1) * 30000], 30 * 1000 ≤ t ∧ t ≤ 60 * 1000
    decide

/-- Claim C9 witness: the 60 s / 30 s timeout scenario on an
always-`running` service. -/
theorem claim9_timeout_scenario_wit :
    (pollLoop constRunningResp 60 30).requests = 2 ∧
    (pollLoop constRunningResp 60 30).finalStatus = "timeout" ∧
    (pollLoop constRunningResp 60 30).requestTimes = [30000, 60000] ∧
    (∀ t ∈ (pollLoop constRunningResp 60 30).requestTimes, 30 * 1000 ≤ t ∧ t ≤ 60 * 1000) ∧
    (∀ (foc : Bool) (err : Option String),
      exitStep (pollLoop constRunningResp 60 30).finalStatus
        (pollLoop constRunningResp 60 30).criticalIssues foc err =
        RunExit.failed "QualiBot test timed out. Check the dashboard for details.") :=
  claim9_timeout_scenario constRunningResp (fun _ => rfl)

/-! ## Claim C6 -/

/-- The survivors of a `filterMap`, in order, form a sublist of the
per-element results. -/
theorem filterMap_map_some_sublist {α β : Type} (f : α → Option β) (l : List α) :
    ((l.filterMap f).map some).Sublist (l.map f) := by
  induction l with
  | nil => simp
  | cons a l ih =>
      cases hf : f a with
      | none =>
          simp only [List.filterMap_cons, hf, List.map_cons]
          exact ih.cons none
      | some b =>
          simp only [List.filterMap_cons, hf, List.map_cons]
          exact ih.cons₂ (some b)

/-- `takeSign` only ever reports the sign `1` or `-1`. -/
theorem takeSign_pm (l : List Char) : (takeSign l).1 = 1 ∨ (takeSign l).1 = -1 := by
  unfold takeSign
  split
  · exact Or.inl rfl
  · exact Or.inr rfl
  · exact Or.inl rfl

/-- `jsRadix` only builds nonnegative integer literals. -/
theorem jsRadix_sign (b : Nat) (ok : Char → Bool) (val : Char → Nat) (ds : List Char)
    (x : JsNum) (h : jsRadix b ok val ds = some (JsVal.num x)) : x.sign = 1 := by
  unfold jsRadix at h
  split at h
  · have hx := JsVal.num.inj (Option.some.inj h)
    rw [← hx]
  · exact absurd h (by simp)

/-- `jsDecimal` only builds finite values with sign `1` or `-1`. -/
theorem jsDecimal_sign (t : List Char) (x : JsNum)
    (h : jsDecimal t = some (JsVal.num x)) : x.sign = 1 ∨ x.sign = -1 := by
  simp only [jsDecimal] at h
  split at h
  · exact absurd h (by simp)
  · split at h
    · exact absurd h (by simp)
    · split at h
      · exact absurd h (by simp)
      · have hx := JsVal.num.inj (Option.some.inj h)
        rw [← hx]
        exact takeSign_pm t

/-- Every finite number `jsNumber` produces carries sign `1` or `-1`. -/
theorem jsNumber_sign (s : List Char) (x : JsNum)
    (h : jsNumber s = some (JsVal.num x)) : x.sign = 1 ∨ x.sign = -1 := by
  unfold jsNumber at h
  split at h
  · have hx := JsVal.num.inj (Option.some.inj h)
    rw [← hx]
    exact Or.inl rfl
  · exact Or.inl (jsRadix_sign _ _ _ _ _ h)
  · exact Or.inl (jsRadix_sign _ _ _ _ _ h)
  · exact Or.inl (jsRadix_sign _ _ _ _ _ h)
  · exact Or.inl (jsRadix_sign _ _ _ _ _ h)
  · exact Or.inl (jsRadix_sign _ _ _ _ _ h)
  · exact Or.inl (jsRadix_sign _ _ _ _ _ h)
  · exact jsDecimal_sign _ _ h

/-- For a literal with sign `±1`, `JsNum.isZero` holds exactly when the
denoted magnitude is at most `2 ^ (-1075)`: the threshold at and below
which string-to-double conversion rounds the value to zero. -/
theorem JsNum.isZero_iff (x : JsNum) (hsg : x.sign = 1 ∨ x.sign = -1) :
    x.isZero = true ↔ |x.toRat| ≤ (2 : ℚ) ^ (-1075 : ℤ) := by
  have hsa : |(x.sign : ℚ)| = 1 := by
    rcases hsg with h | h <;> rw [h] <;> norm_num
  have habs : |x.toRat| =
      ((x.intPart * 10 ^ x.fracLen + x.fracPart : ℕ) : ℚ) *
        (10 : ℚ) ^ (x.exp - (x.fracLen : ℤ)) := by
    have h1 : x.toRat =
        (x.sign : ℚ) * (((x.intPart * 10 ^ x.fracLen + x.fracPart : ℕ) : ℚ) *
          (10 : ℚ) ^ (x.exp - (x.fracLen : ℤ))) := by
      unfold JsNum.toRat
      rw [zpow_sub₀ (by norm_num : (10 : ℚ) ≠ 0), zpow_natCast]
      have hfl : ((10 : ℚ) ^ x.fracLen) ≠ 0 := by positivity
      push_cast
      field_simp
      ring
    rw [h1, abs_mul, hsa, one_mul, abs_of_nonneg
      (show (0 : ℚ) ≤ ((x.intPart * 10 ^ x.fracLen + x.fracPart : ℕ) : ℚ) *
          (10 : ℚ) ^ (x.exp - (x.fracLen : ℤ)) by positivity)]
  rw [habs]
  unfold JsNum.isZero
  by_cases hm0 : x.intPart * 10 ^ x.fracLen + x.fracPart = 0
  · rw [if_pos (by simpa using hm0)]
    simp only [hm0, Nat.cast_zero, zero_mul, true_iff]
    positivity
  · rw [if_neg (by simpa using hm0)]
    by_cases he : x.exp < (x.fracLen : Int)
    · rw [if_pos he, decide_eq_true_eq]
      set K := ((x.fracLen : ℤ) - x.exp).toNat with hK
      have hKe : x.exp - (x.fracLen : ℤ) = -(K : ℤ) := by omega
      rw [hKe, zpow_neg, zpow_natCast]
      rw [show ((-1075 : ℤ)) = -((1075 : ℕ) : ℤ) from rfl, zpow_neg, zpow_natCast]
      have h10 : (0 : ℚ) < (10 : ℚ) ^ K := by positivity
      have h2 : (0 : ℚ) < (2 : ℚ) ^ (1075 : ℕ) := by positivity
      rw [← div_eq_mul_inv, inv_eq_one_div, div_le_div_iff h10 h2, one_mul]
      constructor
      · intro h
        exact_mod_cast h
      · intro h
        exact_mod_cast h
    · rw [if_neg he]
      have hm1 : (1 : ℚ) ≤ ((x.intPart * 10 ^ x.fracLen + x.fracPart : ℕ) : ℚ) := by
        exact_mod_cast Nat.one_le_iff_ne_zero.mpr hm0
      have hne : x.exp - (x.fracLen : ℤ) = ((x.exp - (x.fracLen : ℤ)).toNat : ℤ) := by
        omega
      have h1pow : (1 : ℚ) ≤ (10 : ℚ) ^ (x.exp - (x.fracLen : ℤ)) := by
        rw [hne, zpow_natCast]
        exact one_le_pow₀ (by norm_num)
      have hthr : (2 : ℚ) ^ (-1075 : ℤ) < 1 := by
        rw [show ((-1075 : ℤ)) = -((1075 : ℕ) : ℤ) from rfl, zpow_neg, zpow_natCast]
        exact inv_lt_one_of_one_lt₀ (one_lt_pow₀ (by norm_num) (by norm_num))
      have hge : (1 : ℚ) ≤ ((x.intPart * 10 ^ x.fracLen + x.fracPart : ℕ) : ℚ) *
          (10 : ℚ) ^ (x.exp - (x.fracLen : ℤ)) := by
        have := mul_le_mul hm1 h1pow (by norm_num) (by positivity)
        simpa using this
      constructor
      · intro hcon
        exact absurd hcon (by simp)
      · intro hcon
        exact absurd hcon (not_le.mpr (lt_of_lt_of_le hthr hge))

set_option maxRecDepth 8192 in
/-- Claim C6 counterexample: the truthiness guard `w && h` keeps every
pair of nonzero parsed numbers, so `-3x4` (width denoting `-3`, not a
positive integer), `2.5x4` (width denoting `5/2`, not an integer) and
`1x2x3` (not of the form `WIDTHxHEIGHT`; the third part is ignored) all
survive, where the claim says each token is dropped. -/
theorem claim6_viewport_cex :
    parseViewports "-3x4" =
      [{ width := JsVal.num { sign := -1, intPart := 3, fracPart := 0, fracLen := 0, exp := 0 },
         height := JsVal.num { sign := 1, intPart := 4, fracPart := 0, fracLen := 0, exp := 0 } }] ∧
    JsNum.toRat { sign := -1, intPart := 3, fracPart := 0, fracLen := 0, exp := 0 } = -3 ∧
    parseViewports "2.5x4" =
      [{ width := JsVal.num { sign := 1, intPart := 2, fracPart := 5, fracLen := 1, exp := 0 },
         height := JsVal.num { sign := 1, intPart := 4, fracPart := 0, fracLen := 0, exp := 0 } }] ∧
    JsNum.toRat { sign := 1, intPart := 2, fracPart := 5, fracLen := 1, exp := 0 } = 5 / 2 ∧
    parseViewports "1x2x3" =
      [{ width := JsVal.num { sign := 1, intPart := 1, fracPart := 0, fracLen := 0, exp := 0 },
         height := JsVal.num { sign := 1, intPart := 2, fracPart := 0, fracLen := 0, exp := 0 } }] := by
  refine ⟨by decide, ?_, by decide, ?_, by decide⟩
  · norm_num [JsNum.toRat]
  · norm_num [JsNum.toRat]

set_option maxRecDepth 8192 in
/-- Claim C6 (amended: a token is kept exactly when the first two
`x`-separated parts of its trimmed text convert to truthy JavaScript
numbers — not `NaN` and not `±0` after rounding to double precision;
negative, fractional, hexadecimal/octal/binary and infinite values
included, parts beyond the second ignored — and it then yields
`{width, height}` from those two parsed values): the token list is
filtered in order, survivors characterized by the truthiness guard, the
guard grounded in the denoted value and the rounding threshold, with
well-formed, malformed, radix, infinite and underflowing examples
evaluated concretely. -/
theorem claim6_viewport_filter :
    (∀ s : String, parseViewports s = (splitOnChar ',' s.data).filterMap parseViewportToken) ∧
    (∀ s : String,
      ((parseViewports s).map some).Sublist
        ((splitOnChar ',' s.data).map parseViewportToken)) ∧
    (∀ (v : List Char) (vp : Viewport),
      parseViewportToken v = some vp ↔
        ∃ rest, (splitOnChar 'x' (jsTrim v)).map jsNumber =
            some vp.width :: some vp.height :: rest ∧
          vp.width.isZero = false ∧ vp.height.isZero = false) ∧
    (∀ (s : List Char) (x : JsNum), jsNumber s = some (JsVal.num x) →
      (x.isZero = true ↔ |x.toRat| ≤ (2 : ℚ) ^ (-1075 : ℤ))) ∧
    (∀ sg : Int, (JsVal.inf sg).isZero = false) ∧
    parseViewports "1920x1080, 800x600" =
      [{ width := JsVal.num { sign := 1, intPart := 1920, fracPart := 0, fracLen := 0, exp := 0 },
         height := JsVal.num { sign := 1, intPart := 1080, fracPart := 0, fracLen := 0, exp := 0 } },
       { width := JsVal.num { sign := 1, intPart := 800, fracPart := 0, fracLen := 0, exp := 0 },
         height := JsVal.num { sign := 1, intPart := 600, fracPart := 0, fracLen := 0, exp := 0 } }] ∧
    parseViewports "1920,axb,0x5, 1280x720 " =
      [{ width := JsVal.num { sign := 1, intPart := 1280, fracPart := 0, fracLen := 0, exp := 0 },
         height := JsVal.num { sign := 1, intPart := 720, fracPart := 0, fracLen := 0, exp := 0 } }] ∧
    parseViewports "0X10x5" =
      [{ width := JsVal.num { sign := 1, intPart := 16, fracPart := 0, fracLen := 0, exp := 0 },
         height := JsVal.num { sign := 1, intPart := 5, fracPart := 0, fracLen := 0, exp := 0 } }] ∧
    parseViewports "0o7x5" =
      [{ width := JsVal.num { sign := 1, intPart := 7, fracPart := 0, fracLen := 0, exp := 0 },
         height := JsVal.num { sign := 1, intPart := 5, fracPart := 0, fracLen := 0, exp := 0 } }] ∧
    parseViewports "0b101x5" =
      [{ width := JsVal.num { sign := 1, intPart := 5, fracPart := 0, fracLen := 0, exp := 0 },
         height := JsVal.num { sign := 1, intPart := 5, fracPart := 0, fracLen := 0, exp := 0 } }] ∧
    parseViewports "Infinityx5" =
      [{ width := JsVal.inf 1,
         height := JsVal.num { sign := 1, intPart := 5, fracPart := 0, fracLen := 0, exp := 0 } }] ∧
    parseViewports "1e-400x5" = [] ∧
    parseViewports "1e-323x5" =
      [{ width := JsVal.num { sign := 1, intPart := 1, fracPart := 0, fracLen := 0, exp := -323 },
         height := JsVal.num { sign := 1, intPart := 5, fracPart := 0, fracLen := 0, exp := 0 } }] := by
  refine ⟨fun s => rfl, ?_, ?_, ?_, fun sg => rfl, by decide, by decide, by decide, by decide,
    by decide, by decide, by decide, by decide⟩
  · intro s
    exact filterMap_map_some_sublist parseViewportToken (splitOnChar ',' s.data)
  · intro v vp
    obtain ⟨vw, vh⟩ := vp
    constructor
    · intro hv
      unfold parseViewportToken at hv
      split at hv
      case h_1 w h rest heq =>
          split at hv
          case isTrue hts =>
              obtain ⟨rfl, rfl⟩ : w = vw ∧ h = vh := by
                have := Option.some.inj hv
                exact ⟨congrArg Viewport.width this, congrArg Viewport.height this⟩
              exact ⟨rest, heq, hts.1, hts.2⟩
          case isFalse => exact absurd hv (by simp)
      case h_2 => exact absurd hv (by simp)
    · rintro ⟨rest, hm, hw, hh⟩
      unfold parseViewportToken
      rw [hm]
      simp [hw, hh]
  · intro s x h
    exact JsNum.isZero_iff x (jsNumber_sign s x h)

set_option maxRecDepth 8192 in
/-- Claim C6 witness: the kept-token characterization at `800x600` and
the rounding-threshold grounding of the truthiness guard at the parse of
`800`. -/
theorem claim6_viewport_filter_wit :
    (parseViewportToken "800x600".data =
        some { width := JsVal.num { sign := 1, intPart := 800, fracPart := 0, fracLen := 0, exp := 0 },
               height := JsVal.num { sign := 1, intPart := 600, fracPart := 0, fracLen := 0, exp := 0 } } ↔
      ∃ rest, (splitOnChar 'x' (jsTrim "800x600".data)).map jsNumber =
          some (JsVal.num { sign := 1, intPart := 800, fracPart := 0, fracLen := 0, exp := 0 }) ::
            some (JsVal.num { sign := 1, intPart := 600, fracPart := 0, fracLen := 0, exp := 0 }) :: rest ∧
        JsVal.isZero (JsVal.num { sign := 1, intPart := 800, fracPart := 0, fracLen := 0, exp := 0 }) = false ∧
        JsVal.isZero (JsVal.num { sign := 1, intPart := 600, fracPart := 0, fracLen := 0, exp := 0 }) = false) ∧
    (JsNum.isZero { sign := 1, intPart := 800, fracPart := 0, fracLen := 0, exp := 0 } = true ↔
      |JsNum.toRat { sign := 1, intPart := 800, fracPart := 0, fracLen := 0, exp := 0 }| ≤
        (2 : ℚ) ^ (-1075 : ℤ)) :=
  ⟨claim6_viewport_filter.2.2.1 "800x600".data
      { width := JsVal.num { sign := 1, intPart := 800, fracPart := 0, fracLen := 0, exp := 0 },
        height := JsVal.num { sign := 1, intPart := 600, fracPart := 0, fracLen := 0, exp := 0 } },
   claim6_viewport_filter.2.2.2.1 "800".data
      { sign := 1, intPart := 800, fracPart := 0, fracLen := 0, exp := 0 } (by decide)⟩

/-! ## Claim C7 -/

def sampleIssue : TestIssue :=
  { type := "visual", severity := "warning", title := "Misaligned header",
    description := "The header overlaps the nav bar.", suggestion := none,
    status := none }

/-- Claim C7: for a non-empty issues list the section consists of the
fixed header, one row per issue of `issues.slice(0, 10)` in order —
`min(length, 10)` rows — and an overflow note exactly when more than 10
issues exist; 11 issues render 10 rows plus the `...and 1 more issues`
note, 10 issues render no note. -/
theorem claim7_issues_cap :
    (∀ issues : List TestIssue, 0 < issues.length →
      issuesSection issues =
        issuesSectionHeader ++ (issues.take 10).map renderIssueRow ++ issuesOverflow issues ∧
      ((issues.take 10).map renderIssueRow).length = min issues.length 10 ∧
      (issuesOverflow issues = [] ↔ issues.length ≤ 10)) ∧
    issuesSection (List.replicate 11 sampleIssue) =
      issuesSectionHeader ++ (List.replicate 10 sampleIssue).map renderIssueRow ++
        ["", "_...and 1 more issues_"] ∧
    issuesSection (List.replicate 10 sampleIssue) =
      issuesSectionHeader ++ (List.replicate 10 sampleIssue).map renderIssueRow := by
  refine ⟨?_, by decide, by decide⟩
  intro issues hlen
  refine ⟨?_, ?_, ?_⟩
  · simp [issuesSection, hlen]
  · rw [List.length_map, List.length_take]
    omega
  · unfold issuesOverflow
    by_cases h : issues.length > 10
    · simp only [h, if_true]
      constructor
      · intro hcon
        exact absurd hcon (by simp)
      · intro hcon
        omega
    · simp only [h, if_false]
      constructor
      · intro _
        omega
      · intro _
        trivial

/-- Claim C7 witness: a three-issue list — all rows rendered, no
overflow note. -/
theorem claim7_issues_cap_wit :
    issuesSection (List.replicate 3 sampleIssue) =
      issuesSectionHeader ++ ((List.replicate 3 sampleIssue).take 10).map renderIssueRow ++
        issuesOverflow (List.replicate 3 sampleIssue) ∧
    (((List.replicate 3 sampleIssue).take 10).map renderIssueRow).length =
      min (List.replicate 3 sampleIssue).length 10 ∧
    (issuesOverflow (List.replicate 3 sampleIssue) = [] ↔
      (List.replicate 3 sampleIssue).length ≤ 10) :=
  claim7_issues_cap.1 (List.replicate 3 sampleIssue) (by decide)

/-! ## Claim C8 -/

def longTitle : String := ⟨List.replicate 200 'a'⟩

def longTitleIssue : TestIssue :=
  { type := "visual", severity := "info", title := longTitle,
    description := "overlap", suggestion := none, status := none }

set_option maxRecDepth 4096 in
/-- Claim C8 counterexample: an issue title of 200 characters is embedded
in its table row in full — it occurs verbatim as an infix of the row —
although the code's own truncation bounds for description fields are 100
and 120 characters; titles are never truncated. -/
theorem claim8_truncation_cex :
    renderIssueRow longTitleIssue =
      "| " ++ blueIcon ++ " info | visual | " ++ longTitle ++ " | overlap |  |" ∧
    longTitle.length = 200 ∧
    List.IsInfix longTitle.data (renderIssueRow longTitleIssue).data ∧
    100 < longTitle.length ∧ 120 < longTitle.length := by
  refine ⟨by decide, by decide, by decide, by decide, by decide⟩

/-- One step of an interaction test (the same line shape is reused for
functional-scenario steps and test-overview form steps). -/
structure InteractionStep where
  action : String
  description : String
  success : Bool
  error : Option String
deriving DecidableEq, Repr

/-- The em dash appearing in the step and code-analysis feature lines, in
the source file's double-encoded form. -/
def emDashMoji : String := strOfCodes [0xE2, 0x20AC, 0x201D]

/-- The error suffix of a step line:
`${step.error ? ` — _${step.error}_` : ""}` — empty for a falsy error. -/
def stepErrSuffix (e : Option String) : String :=
  match e with
  | none => ""
  | some err => if err == "" then "" else " " ++ emDashMoji ++ " _" ++ err ++ "_"

/-- One line of a steps list:
`${stepIcon} ${step.description}${...}` — the step description is embedded
untruncated. -/
def renderStepLine (s : InteractionStep) : String :=
  (if s.success then passedEmoji else failEmoji) ++ " " ++ s.description ++
    stepErrSuffix s.error

/-- The interaction test's description line `> ${result.description}` —
the description is embedded untruncated. -/
def renderInteractionDesc (d : String) : String := "> " ++ d

/-- One feature reported by code analysis. -/
structure CodeFeature where
  name : String
  type : String
  description : String
  confidence : Int
deriving DecidableEq, Repr

/-- The `typeEmoji` record of the code-analysis section together with the
`|| "🔧"` fallback of the feature line (the file's `search` and `auth`
entries, and the `other` entry and the fallback, are byte-identical). -/
def codeFeatureEmoji (t : String) : String :=
  if t == "form" then strOfCodes [0x11F, 0x178, 0x201C]
  else if t == "navigation" then strOfCodes [0x11F, 0x178, 0x201D, 0x2014]
  else if t == "modal" then strOfCodes [0x11F, 0x178, 0xAA, 0x178]
  else if t == "dropdown" then strOfCodes [0x11F, 0x178, 0x201C, 0x2039]
  else if t == "toggle" then strOfCodes [0x11F, 0x178, 0x201D, 0x20AC]
  else if t == "search" then strOfCodes [0x11F, 0x178, 0x201D]
  else if t == "list" then strOfCodes [0x11F, 0x178, 0x201C, 0x192]
  else if t == "crud" then strOfCodes [0x11F, 0x178, 0x2014, 0x192, 0xEF, 0xB8]
  else if t == "auth" then strOfCodes [0x11F, 0x178, 0x201D]
  else if t == "upload" then strOfCodes [0x11F, 0x178, 0x201C, 0xA4]
  else strOfCodes [0x11F, 0x178, 0x201D, 0xA7]

/-- One line of the code-analysis feature list:
`- ${typeEmoji[feature.type] || "🔧"} **${feature.name}** (${feature.type}) — ${feature.description.slice(0, 120)}`
— here the description is truncated at 120 characters. -/
def renderFeatureLine (f : CodeFeature) : String :=
  "- " ++ codeFeatureEmoji f.type ++ " **" ++ f.name ++ "** (" ++ f.type ++ ") " ++
    emDashMoji ++ " " ++ jsSlice f.description 120

/-- Claim C8 (amended: truncation applies only to specific description
fields — the issues-table row description at 100 characters, issue-list
entry descriptions at 120 and code-analysis feature descriptions at 120 —
while the other per-item text fields, among them titles, names,
interaction-test descriptions and step descriptions, are embedded
untruncated): each truncating site carries its description through
`slice(0, ·)`, whose output length never exceeds the bound, and each
non-truncating site embeds its field verbatim. -/
theorem claim8_truncation :
    (∀ i : TestIssue,
      renderIssueRow i =
        "| " ++ severityIcon i.severity ++ " " ++ i.severity ++ " | " ++ i.type ++ " | " ++
          i.title ++ " | " ++ jsSlice i.description 100 ++ " | " ++
          statusLabel i.status ++ " |" ∧
      (jsSlice i.description 100).length ≤ 100) ∧
    (∀ i : InteractionIssue,
      renderInteractionIssueLine i =
        "- " ++ severityIcon i.severity ++ " " ++ i.title ++ ": " ++
          jsSlice i.description 120 ∧
      (jsSlice i.description 120).length ≤ 120) ∧
    (∀ f : CodeFeature,
      renderFeatureLine f =
        "- " ++ codeFeatureEmoji f.type ++ " **" ++ f.name ++ "** (" ++ f.type ++ ") " ++
          emDashMoji ++ " " ++ jsSlice f.description 120 ∧
      (jsSlice f.description 120).length ≤ 120) ∧
    (∀ d : String,
      renderInteractionDesc d = "> " ++ d ∧
      (renderInteractionDesc d).length = 2 + d.length) ∧
    (∀ s : InteractionStep, ∃ suffix,
      renderStepLine s =
        (if s.success then passedEmoji else failEmoji) ++ " " ++ s.description ++ suffix) := by
  refine ⟨?_, ?_, ?_, ?_, ?_⟩
  · intro i
    refine ⟨rfl, ?_⟩
    show (i.description.data.take 100).length ≤ 100
    rw [List.length_take]
    omega
  · intro i
    refine ⟨rfl, ?_⟩
    show (i.description.data.take 120).length ≤ 120
    rw [List.length_take]
    omega
  · intro f
    refine ⟨rfl, ?_⟩
    show (f.description.data.take 120).length ≤ 120
    rw [List.length_take]
    omega
  · intro d
    refine ⟨rfl, ?_⟩
    show ("> " ++ d).length = 2 + d.length
    rw [String.length_append]
    rfl
  · intro s
    exact ⟨stepErrSuffix s.error, rfl⟩

end QB
